import Mathlib

/-!
# Verification of the RadioOnline terminal radio player (`src/main.py`)

Shallow embedding of the program's data model and operations:
* `Radio` — the playback session (`Radio.play`, `Radio.stop`, `Radio.volume`, …);
* `PathManager` — the navigation stack (`forward`, `back`);
* the three pages `AskMenu`, `AskStation`, `AskVolume` (input handling,
  station-list rendering, volume bar and volume up/down).

Python exceptions are modelled with `Except PyError`; where an exception
leaves the mutated object mutated, the error carries the state at the point
of raising.  Python list indexing (including negative indices) is modelled
by `pyIndex`/`pyGet`.
-/

namespace RadioOnline

/-- A radio station, as parsed from the catalog (`Station` dataclass).
Its `str()` is the title. -/
structure Station where
  id : Int
  title : String
  stream_url : String
deriving DecidableEq, Repr

/-- Python runtime errors the embedded code can raise. -/
inductive PyError where
  | indexError
  | valueError
  | attributeError
deriving DecidableEq, Repr

/-- The state of one VLC media-player handle (`self.player`): the media it
was given, whether it is playing, and the engine volume. -/
structure Player where
  media : Option String
  playing : Bool
  volume : Int
deriving DecidableEq, Repr

/-- The mutable state of a `Radio` object: `_now_station` and the `player`
attribute, which does not exist until the first `play()` assigns it
(`hasattr(self, 'player')` is modelled by `player.isSome`). -/
structure RadioState where
  now_station : Option Station
  player : Option Player
deriving DecidableEq, Repr

/-- Model of `Radio.__init__`: no station selected, no `player` attribute. -/
def Radio.init : RadioState := { now_station := none, player := none }

/-- Model of `Radio.select_station` (via the `now_station` setter; the
`isinstance` check always passes in the typed embedding). -/
def Radio.select_station (st : Station) (s : RadioState) : RadioState :=
  { s with now_station := some st }

/-- Model of `Radio.stop`: if the `player` attribute exists, call `player.stop()`
(the handle stops playing but the attribute is not deleted). -/
def Radio.stop (s : RadioState) : RadioState :=
  match s.player with
  | none => s
  | some p => { s with player := some { p with playing := false } }

/-- Model of `Radio.play`: stop the old handle if any, create a fresh player handle
(`self.player = instance.media_player_new()`), then build the media from
`self.now_station.stream_url` — which raises `AttributeError` when
`now_station` is `None`, *after* the new handle has already been assigned —
then set the media and start playing.  `freshVolume` is the engine default
volume of a freshly created player (opaque to the program). -/
def Radio.play (freshVolume : Int) (s : RadioState) :
    Except (PyError × RadioState) RadioState :=
  let s1 := Radio.stop s
  let s2 := { s1 with
    player := some { media := none, playing := false, volume := freshVolume } }
  match s2.now_station with
  | none => .error (.attributeError, s2)
  | some st =>
      .ok { s2 with
        player := some { media := some st.stream_url, playing := true,
                         volume := freshVolume } }

/-- Model of `Radio.pause`: toggle pause on the handle if it exists, else no-op. -/
def Radio.pause (s : RadioState) : RadioState :=
  match s.player with
  | none => s
  | some p => { s with player := some { p with playing := !p.playing } }

/-- Model of `Radio.volume`: return (a complete no-op) when the `player` attribute
does not exist; otherwise pass `value` verbatim to
`player.audio_set_volume`. -/
def Radio.volume (value : Int) (s : RadioState) : RadioState :=
  match s.player with
  | none => s
  | some p => { s with player := some { p with volume := value } }

/-! ## Python list indexing -/

/-- Python list indexing `l[i]` for a list of length `len`: nonnegative
indices must be `< len`; negative indices count from the end
(`l[i]` is `l[len+i]` when `len + i ≥ 0`); otherwise `IndexError`. -/
def pyIndex (len : Nat) (i : Int) : Option Nat :=
  if 0 ≤ i then
    if i < (len : Int) then some i.toNat else none
  else
    if 0 ≤ (len : Int) + i then some ((len : Int) + i).toNat else none

/-- Python `l[i]` (element access with negative-index support). -/
def pyGet {α : Type} (l : List α) (i : Int) : Option α :=
  (pyIndex l.length i).bind l.get?

/-! ## String helpers (`str.ljust` / `str.rjust`) -/

/-- Python `s.ljust(width)`: pad with spaces on the right. -/
def ljust (s : String) (width : Nat) : String :=
  s ++ String.mk (List.replicate (width - s.length) ' ')

/-- Python `s.rjust(width)`: pad with spaces on the left. -/
def rjust (s : String) (width : Nat) : String :=
  String.mk (List.replicate (width - s.length) ' ') ++ s

/-! ## `PathManager` — the navigation stack

Pages are identified by their `name` attribute; `AskManager.__init__`
registers exactly the pages named `"menu"`, `"station"` and
`"volume_settings"`, with distinct names, so a page is represented here by
its name. -/

/-- The names of the pages registered in `AskManager.__init__`. -/
def registeredPages : List String := ["menu", "station", "volume_settings"]

/-- Navigation state: `PathManager.memory` together with
`AskManager.current_page` (identified by its name). -/
structure NavState where
  memory : List String
  current : String
deriving DecidableEq, Repr

/-- Model of `filter(lambda p: p.name==name, self.page_manager.pages)` followed by
`next(...)`: the first registered page whose name equals `name`, or
`none` (`StopIteration`) if there is no such page. -/
def findPage (name : String) : Option String :=
  (registeredPages.filter (fun p => p == name)).head?

/-- Model of `PathManager.forward`: append `name` to the history, then make the page
named `name` current; `none` models the uncaught `StopIteration` when no
registered page has that name. -/
def forward (name : String) (s : NavState) : Option NavState :=
  match findPage name with
  | some page => some { memory := s.memory ++ [name], current := page }
  | none => none

/-- Model of `PathManager.back`: drop the last history entry when the history is
longer than one, read the (new) last entry — `none` models the
`IndexError` of `memory[-1]` on an empty history — drop it again, and
`forward` to it. -/
def back (s : NavState) : Option NavState :=
  let m1 := if 1 < s.memory.length then s.memory.dropLast else s.memory
  match m1.getLast? with
  | none => none
  | some last => forward last { memory := m1.dropLast, current := s.current }

/-- The initial navigation state: `memory = ['menu']` and
`current_page = asks[0]`, the menu page. -/
def rootState : NavState := { memory := ["menu"], current := "menu" }

/-- Model of `n` consecutive `back()` calls starting from the root state. -/
def backN : Nat → Option NavState
  | 0 => some rootState
  | n + 1 => (backN n).bind back

/-- The navigation states reachable from the root by successful
`forward`/`back` operations. -/
inductive Reachable : NavState → Prop where
  | root : Reachable rootState
  | fwd {s s' : NavState} {name : String} :
      Reachable s → forward name s = some s' → Reachable s'
  | bk {s s' : NavState} :
      Reachable s → back s = some s' → Reachable s'

/-! ## `AskMenu` — the main menu page -/

/-- The effect of one entry of `AskMenu.callbacks`:
`[exit, forward('station'), forward('volume_settings')]`. -/
inductive MenuAction where
  | exit
  | navStation
  | navVolume
deriving DecidableEq, Repr

/-- Model of `AskMenu.callbacks` in order. -/
def menu_callbacks : List MenuAction :=
  [MenuAction.exit, MenuAction.navStation, MenuAction.navVolume]

/-- Model of `AskMenu.get_input`: read lines until one parses as an `int`
(`ValueError` is caught, a message is printed, and the page re-prompts).
Each raw line is modelled by its parse result (`none` = not numeric);
the result is the first successfully parsed integer, `none` if the
input stream is exhausted. -/
def menu_get_input : List (Option Int) → Option Int
  | [] => none
  | some n :: _ => some n
  | none :: rest => menu_get_input rest

/-- Model of `AskMenu.run_callback`: `self.callbacks[index]()`, with Python list
indexing — an uncaught `IndexError` when `index` is outside `[-3, 2]`. -/
def menu_run_callback (index : Int) : Except PyError MenuAction :=
  match pyGet menu_callbacks index with
  | some a => .ok a
  | none => .error .indexError

/-! ## `AskStation` — the station-picker page -/

/-- The loop body of `AskStation.show_text`, producing the printed lines:
`while i <= len(stations)` formats `stations[i]` (an uncaught
`IndexError` when `i == len(stations)`) and, inside `try`, `stations[i+1]`
(its `IndexError` is caught and the second column left empty), then steps
`i` by two. -/
def show_text_loop (stations : List Station) (i : Nat) :
    Except PyError (List String) :=
  if _h : i ≤ stations.length then
    match stations.get? i with
    | none => .error .indexError
    | some st1 =>
        let num_1 := ljust (toString (i + 1) ++ ".") 4
        let station_1 := ljust (num_1 ++ " " ++ st1.title) 40
        let station_2 :=
          match stations.get? (i + 1) with
          | some st2 => ljust (toString (i + 2) ++ ".") 4 ++ " " ++ st2.title
          | none => ""
        match show_text_loop stations (i + 2) with
        | .ok rest => .ok ((station_1 ++ station_2) :: rest)
        | .error e => .error e
  else .ok []
termination_by stations.length + 1 - i
decreasing_by simp_wf; omega

/-- Model of `AskStation.show_text`: the two-column station listing, starting the
loop at `i = 0`. -/
def show_text (stations : List Station) : Except PyError (List String) :=
  show_text_loop stations 0

/-- Model of `AskStation.get_input`: render the list (`show_text`, whose exceptions
propagate), then `int(input(...)) - 1` — `raw = none` models a line that
does not parse as an `int` (uncaught `ValueError`) — and finally
`self.stations[station_number]` with Python indexing (an uncaught
`IndexError` when out of range, the last station when the entry was `0`). -/
def askStation_get_input (stations : List Station) (raw : Option Int) :
    Except PyError Station :=
  match show_text stations with
  | .error e => .error e
  | .ok _ =>
      match raw with
      | none => .error .valueError
      | some n =>
          match pyGet stations (n - 1) with
          | some st => .ok st
          | none => .error .indexError

/-! ## `AskVolume` — the volume-settings page -/

/-- The number of filled segments of the volume bar:
`'█' * (volume // 5)` (Python floor division; a negative repeat count
yields the empty string). -/
def bar_filled (volume : Int) : Nat := (Int.fdiv volume 5).toNat

/-- The bar field of `AskVolume.get_volume_scale`:
`('█' * (volume // 5)).ljust(20)`. -/
def volume_bar (volume : Int) : String :=
  ljust (String.mk (List.replicate (bar_filled volume) '█')) 20

/-- Model of `AskVolume.get_volume_scale`: a fixed message when no handle exists,
otherwise `'| ' + bar.ljust(20) + ' | ' + str(volume).rjust(3) + '%'`
with `volume = player.audio_get_volume()`. -/
def get_volume_scale (s : RadioState) : String :=
  match s.player with
  | none => "сначала нужно выбрать станцию."
  | some p => "| " ++ volume_bar p.volume ++ " | " ++
      rjust (toString p.volume) 3 ++ "%"

/-- Model of `AskVolume.volume_up`: no-op without a handle; read the engine volume;
return if it is already `>= 100`; otherwise set `volume + 1`. -/
def volume_up (s : RadioState) : RadioState :=
  match s.player with
  | none => s
  | some p =>
      if 100 ≤ p.volume then s
      else { s with player := some { p with volume := p.volume + 1 } }

/-- Model of `AskVolume.volume_down`: no-op without a handle; read the engine
volume; return if it is already `<= 0`; otherwise set `volume - 1`. -/
def volume_down (s : RadioState) : RadioState :=
  match s.player with
  | none => s
  | some p =>
      if p.volume ≤ 0 then s
      else { s with player := some { p with volume := p.volume - 1 } }

/-- One keypress handled by the polling loop of `AskVolume.get_input`:
the up-arrow (`AdjustVolume(+1)`) or the down-arrow (`AdjustVolume(-1)`). -/
inductive VolOp where
  | up
  | down
deriving DecidableEq, Repr

/-- Apply one volume keypress. -/
def applyVolOp (op : VolOp) (s : RadioState) : RadioState :=
  match op with
  | .up => volume_up s
  | .down => volume_down s

/-- Apply a finite sequence of volume keypresses, oldest first. -/
def applyVolOps (ops : List VolOp) (s : RadioState) : RadioState :=
  ops.foldl (fun st op => applyVolOp op st) s

/-- Modelled from the spec: the spec says the bar has `round(volume/5)`
filled segments.  For an integer `v`, `v/5` is never a half-integer, so
round-half-up agrees with Python's banker's rounding:
`round(v/5) = ⌊(2v+5)/10⌋`. -/
def spec_round_div5 (v : Nat) : Nat := (2 * v + 5) / 10

/-- A concrete station used in counterexamples and witnesses. -/
def stationA : Station := { id := 1, title := "Rock FM", stream_url := "http://a" }

/-! ## C1 — `play()` without a selected station -/

/-- C1, counterexample.  The claim says a `play()` call with
`current_station = none` leaves the session state unchanged and creates no
playback-engine handle.  On the fresh session `Radio.init` (no station,
no handle), `play()` raises `AttributeError`, but the state at the point of
raising already carries `player := some …`: the handle is assigned by
`self.player = instance.media_player_new()` *before* the failing access to
`self.now_station.stream_url`. -/
theorem play_no_station_counterexample :
    Radio.init.player = none ∧
    Radio.play 100 Radio.init = Except.error (PyError.attributeError,
      { now_station := none,
        player := some { media := none, playing := false, volume := 100 } }) :=
  ⟨rfl, rfl⟩

/-- C1, amended.  Calling `play()` while `current_station` is none fails
(with an uncaught `AttributeError`, not a recoverable `NoStationSelected`),
but the session state is *not* unchanged: the failed call has already
created a playback-engine handle (`player` is set), whatever the engine's
default volume and whatever the previous player state. -/
theorem play_no_station_amended (freshVolume : Int) (s : RadioState)
    (h : s.now_station = none) :
    ∃ st : RadioState,
      Radio.play freshVolume s = Except.error (PyError.attributeError, st) ∧
      st.player.isSome = true ∧ st.now_station = none := by
  obtain ⟨ns, pl⟩ := s
  have hns : ns = none := h
  subst hns
  refine ⟨{ now_station := none,
            player := some { media := none, playing := false,
                             volume := freshVolume } }, ?_, rfl, rfl⟩
  cases pl <;> rfl

/-- Witness for C1 (amended), at the fresh session and engine default 100. -/
theorem play_no_station_amended_witness :
    ∃ st : RadioState,
      Radio.play 100 Radio.init = Except.error (PyError.attributeError, st) ∧
      st.player.isSome = true ∧ st.now_station = none :=
  play_no_station_amended 100 Radio.init rfl

/-! ## C4 — volume stays clamped under up/down sequences -/

/-- C4, counterexample.  The claim says the stored volume ends in `[0,100]`
regardless of the starting value.  Starting from an engine volume of 150,
one down-arrow (`volume_down`) stores 149, which is outside `[0,100]`:
`volume_up`/`volume_down` only refuse to step past the bounds from inside,
they never clamp an out-of-range value. -/
theorem volume_unclamped_start_counterexample :
    applyVolOps [VolOp.down]
        { now_station := none,
          player := some { media := none, playing := false, volume := 150 } }
      = { now_station := none,
          player := some { media := none, playing := false, volume := 149 } } ∧
    ¬((149 : Int) ≤ 100) :=
  ⟨rfl, by decide⟩

/-- C4, amended.  If the starting engine volume is within `[0,100]`, then
after any finite sequence of up/down keypresses on the volume page the
stored volume is still within `[0,100]` (and the handle is still there). -/
theorem volume_ops_stay_clamped (ops : List VolOp) (s : RadioState)
    (p : Player) (hp : s.player = some p)
    (h0 : 0 ≤ p.volume) (h1 : p.volume ≤ 100) :
    ∃ q : Player, (applyVolOps ops s).player = some q ∧
      0 ≤ q.volume ∧ q.volume ≤ 100 := by
  induction ops generalizing s p with
  | nil => exact ⟨p, hp, h0, h1⟩
  | cons op rest ih =>
      have hstep : applyVolOps (op :: rest) s
          = applyVolOps rest (applyVolOp op s) := rfl
      rw [hstep]
      cases op with
      | up =>
          by_cases hv : 100 ≤ p.volume
          · have he : applyVolOp VolOp.up s = s := by
              simp [applyVolOp, volume_up, hp, hv]
            rw [he]; exact ih s p hp h0 h1
          · have he : applyVolOp VolOp.up s
                = { s with player := some { p with volume := p.volume + 1 } } := by
              simp [applyVolOp, volume_up, hp, hv]
            rw [he]
            exact ih _ _ rfl (show (0:Int) ≤ p.volume + 1 by omega)
              (show p.volume + 1 ≤ 100 by omega)
      | down =>
          by_cases hv : p.volume ≤ 0
          · have he : applyVolOp VolOp.down s = s := by
              simp [applyVolOp, volume_down, hp, hv]
            rw [he]; exact ih s p hp h0 h1
          · have he : applyVolOp VolOp.down s
                = { s with player := some { p with volume := p.volume - 1 } } := by
              simp [applyVolOp, volume_down, hp, hv]
            rw [he]
            exact ih _ _ rfl (show (0:Int) ≤ p.volume - 1 by omega)
              (show p.volume - 1 ≤ 100 by omega)

/-- Witness for C4 (amended): five down-arrows from volume 50. -/
theorem volume_ops_stay_clamped_witness :
    ∃ q : Player,
      (applyVolOps [VolOp.down, VolOp.down, VolOp.down, VolOp.down, VolOp.down]
        { now_station := none,
          player := some { media := none, playing := false, volume := 50 } }).player
        = some q ∧ 0 ≤ q.volume ∧ q.volume ≤ 100 :=
  volume_ops_stay_clamped _ _ { media := none, playing := false, volume := 50 }
    rfl (by decide) (by decide)

/-! ## C5 — `back()` at the root is idempotent -/

/-- C5, confirmed.  Any number of repeated `back()` calls starting at the
root succeeds and keeps the history at length 1 with first element
`"menu"`, the menu page staying active: at length 1 the pop is skipped,
`memory[-1]` reads `'menu'`, and the final `forward('menu')` re-appends it
and reactivates the menu page. -/
theorem back_at_root_idempotent :
    ∀ n : Nat, ∃ s : NavState, backN n = some s ∧
      1 ≤ s.memory.length ∧ s.memory.head? = some "menu" ∧
      s.current = "menu" := by
  have key : ∀ n : Nat, backN n = some rootState := by
    intro n
    induction n with
    | zero => rfl
    | succ n ih =>
        show (backN n).bind back = some rootState
        rw [ih]
        rfl
  intro n
  exact ⟨rootState, key n, by decide, rfl, rfl⟩

/-! ## C7 — `stop()` and the playback handle -/

/-- C7, counterexample.  The claim says `stop()` clears the handle, so that
after a play-then-stop the session again has no handle.  Selecting a
station, playing it, then stopping leaves `player.isSome = true`:
`Radio.stop` only calls `player.stop()` and never deletes the attribute,
so "handle present iff played since the last stop" fails as well. -/
theorem stop_keeps_handle_counterexample :
    (Radio.play 100 (Radio.select_station stationA Radio.init)).map
      (fun st => (Radio.stop st).player.isSome) = Except.ok true := rfl

/-- C7, amended.  `stop()` is an idempotent no-op when no handle exists,
and when a handle exists it stops playback on it but does *not* clear it:
the handle survives, so a handle is present iff `play()` has ever assigned
one, not iff a station has been played since the last stop. -/
theorem stop_amended (s : RadioState) :
    (s.player = none → Radio.stop s = s) ∧
    (∀ p : Player, s.player = some p →
      Radio.stop s = { s with player := some { p with playing := false } } ∧
      (Radio.stop s).player.isSome = true) := by
  constructor
  · intro h
    simp [Radio.stop, h]
  · intro p h
    constructor <;> simp [Radio.stop, h]

/-- Witness for C7 (amended): no-op on the fresh session; on a playing
handle the handle survives with `playing := false`. -/
theorem stop_amended_witness :
    Radio.stop Radio.init = Radio.init ∧
    Radio.stop { now_station := none,
                 player := some { media := none, playing := true, volume := 70 } }
      = { now_station := none,
          player := some { media := none, playing := false, volume := 70 } } :=
  ⟨(stop_amended Radio.init).1 rfl,
   ((stop_amended _).2 { media := none, playing := true, volume := 70 } rfl).1⟩

/-! ## C8 — `set_volume` -/

/-- C8, counterexample.  The claim says `set_volume` clamps to `[0,100]`
and, without a handle, still updates the stored volume.  With a handle at
volume 50, `Radio.volume 150` passes 150 to the engine unclamped; without
a handle it changes nothing at all (there is no stored volume to update). -/
theorem set_volume_counterexample :
    Radio.volume 150
        { now_station := none,
          player := some { media := none, playing := true, volume := 50 } }
      = { now_station := none,
          player := some { media := none, playing := true, volume := 150 } } ∧
    ¬((150 : Int) ≤ 100) ∧
    Radio.volume 150 { now_station := none, player := none }
      = { now_station := none, player := none } :=
  ⟨rfl, by decide, rfl⟩

/-- C8, amended.  `Radio.volume value` is a complete no-op when no handle
exists (it does not record the value anywhere), and when a handle exists it
passes `value` to the engine verbatim, without clamping. -/
theorem set_volume_amended (value : Int) (s : RadioState) :
    (s.player = none → Radio.volume value s = s) ∧
    (∀ p : Player, s.player = some p →
      Radio.volume value s
        = { s with player := some { p with volume := value } }) := by
  constructor
  · intro h
    simp [Radio.volume, h]
  · intro p h
    simp [Radio.volume, h]

/-- Witness for C8 (amended): value 150, with and without a handle. -/
theorem set_volume_amended_witness :
    Radio.volume 150 Radio.init = Radio.init ∧
    Radio.volume 150
        { now_station := none,
          player := some { media := none, playing := true, volume := 50 } }
      = { now_station := none,
          player := some { media := none, playing := true, volume := 150 } } :=
  ⟨(set_volume_amended 150 Radio.init).1 rfl,
   (set_volume_amended 150 _).2 { media := none, playing := true, volume := 50 } rfl⟩

/-! ## C2 — menu input handling -/

/-- C2, counterexample.  The claim says every integer other than 0, 1, 2
yields a re-prompt and never an uncaught exception.  Input 3 raises an
uncaught `IndexError` (`self.callbacks[3]` on a 3-element list), and input
−1 silently runs the volume-settings callback via Python negative
indexing instead of re-prompting. -/
theorem menu_out_of_range_counterexample :
    menu_run_callback 3 = Except.error PyError.indexError ∧
    menu_run_callback (-1) = Except.ok MenuAction.navVolume :=
  ⟨rfl, rfl⟩

/-- C2, amended.  Inputs 0, 1, 2 run exactly exit / navigate-to-station /
navigate-to-volume-settings, and a non-numeric entry is caught in
`get_input` and re-prompted (the next entry is read); but other integers
are *not* re-prompted: −1, −2, −3 run the callbacks by negative indexing
and every integer outside `[-3, 2]` raises an uncaught `IndexError`. -/
theorem menu_act_amended :
    (∀ i : Int, i < -3 ∨ 2 < i →
      menu_run_callback i = Except.error PyError.indexError) ∧
    menu_run_callback 0 = Except.ok MenuAction.exit ∧
    menu_run_callback 1 = Except.ok MenuAction.navStation ∧
    menu_run_callback 2 = Except.ok MenuAction.navVolume ∧
    menu_run_callback (-1) = Except.ok MenuAction.navVolume ∧
    menu_run_callback (-2) = Except.ok MenuAction.navStation ∧
    menu_run_callback (-3) = Except.ok MenuAction.exit ∧
    (∀ rest, menu_get_input (none :: rest) = menu_get_input rest) ∧
    (∀ (n : Int) rest, menu_get_input (some n :: rest) = some n) := by
  refine ⟨?_, rfl, rfl, rfl, rfl, rfl, rfl, fun rest => rfl, fun n rest => rfl⟩
  intro i hi
  have e : menu_callbacks.length = 3 := rfl
  unfold menu_run_callback pyGet pyIndex
  rw [e]
  rcases hi with h | h
  · rw [if_neg (by omega), if_neg (by omega)]
    rfl
  · rw [if_pos (by omega), if_neg (by omega)]
    rfl

/-- Witness for C2 (amended): input 5 raises the uncaught `IndexError`. -/
theorem menu_act_amended_witness :
    menu_run_callback 5 = Except.error PyError.indexError :=
  menu_act_amended.1 5 (Or.inr (by decide))

/-! ## C9 — the volume bar -/

/-- C9, counterexample.  The claim says the bar has `round(volume/5)`
filled segments.  At volume 48 the code (`'█' * (48 // 5)`) renders 9
filled segments, while `round(48/5) = round(9.6) = 10`. -/
theorem volume_bar_rounding_counterexample :
    (get_volume_scale
        { now_station := none,
          player := some { media := none, playing := true, volume := 48 } }).toList.count '█'
      = 9 ∧
    spec_round_div5 48 = 10 ∧ (9 : Nat) ≠ 10 :=
  ⟨rfl, rfl, by decide⟩

/-- C9, amended.  For every volume in `[0,100]`, the bar field has exactly
`volume // 5` (floor, not round) filled segments in a field of width 20,
and the page renders it as `"| " ++ bar ++ " | " ++ percentage ++ "%"`.
At volume 45 floor and round agree, so the scenario "45 → 9 of 20" holds. -/
theorem volume_bar_amended (v : Int) (h0 : 0 ≤ v) (h1 : v ≤ 100) :
    (volume_bar v).toList.count '█' = v.toNat / 5 ∧
    (volume_bar v).length = 20 ∧
    (∀ (s : RadioState) (p : Player), s.player = some p →
      get_volume_scale s
        = "| " ++ volume_bar p.volume ++ " | " ++
          rjust (toString p.volume) 3 ++ "%") := by
  have hfill : bar_filled v = v.toNat / 5 := by
    unfold bar_filled
    rw [Int.fdiv_eq_ediv v (by norm_num)]
    omega
  have hle20 : bar_filled v ≤ 20 := by
    rw [hfill]; omega
  refine ⟨?_, ?_, ?_⟩
  · unfold volume_bar ljust
    rw [← hfill]
    have htl : ∀ a b : List Char,
        (String.mk a ++ String.mk b).toList = a ++ b := by
      intro a b; rfl
    rw [htl]
    rw [List.count_append, List.count_replicate_self, List.count_replicate]
    simp
  · unfold volume_bar ljust
    have hlen : ∀ a b : List Char,
        (String.mk a ++ String.mk b).length = a.length + b.length := by
      intro a b
      show (a ++ b).length = a.length + b.length
      exact List.length_append a b
    rw [hlen]
    rw [List.length_replicate, List.length_replicate]
    have : (String.mk (List.replicate (bar_filled v) '█')).length
        = bar_filled v := by
      show (List.replicate (bar_filled v) '█').length = bar_filled v
      rw [List.length_replicate]
    rw [this]
    omega
  · intro s p hp
    unfold get_volume_scale
    rw [hp]

/-- Witness for C9 (amended), at volume 45: 9 filled segments of 20. -/
theorem volume_bar_amended_witness :
    (volume_bar 45).toList.count '█' = 9 ∧ (volume_bar 45).length = 20 := by
  have h := volume_bar_amended 45 (by decide) (by decide)
  exact ⟨h.1, h.2.1⟩

/-! ## C10 — `show_text` succeeds exactly on odd catalogs -/

/-- Helper: from any loop start `i`, the listing loop succeeds when `i`
already exceeds the length or the remaining count `length - i` is odd, and
otherwise ends in the uncaught `IndexError` of `stations[i]` at
`i = len(stations)`.  Proved by induction on a fuel bound. -/
theorem show_text_loop_eq (stations : List Station) :
    ∀ fuel i, stations.length + 1 ≤ i + fuel →
      if stations.length < i ∨ (stations.length - i) % 2 = 1
      then (show_text_loop stations i).isOk = true
      else show_text_loop stations i = Except.error PyError.indexError := by
  intro fuel
  induction fuel with
  | zero =>
      intro i hi
      rw [if_pos (Or.inl (by omega))]
      rw [show_text_loop, dif_neg (by omega)]
      rfl
  | succ fuel ih =>
      intro i hi
      by_cases hle : i ≤ stations.length
      · cases hget : stations.get? i with
        | none =>
            have hi_eq : stations.length ≤ i := List.get?_eq_none.mp hget
            rw [if_neg (by omega)]
            rw [show_text_loop, dif_pos hle, hget]
        | some st1 =>
            have hlt : i < stations.length := by
              by_contra hcon
              rw [List.get?_eq_none.mpr (by omega)] at hget
              cases hget
            have hrec := ih (i + 2) (by omega)
            by_cases hc2 : stations.length < i + 2 ∨
                (stations.length - (i + 2)) % 2 = 1
            · rw [if_pos hc2] at hrec
              rw [if_pos (by omega)]
              rw [show_text_loop, dif_pos hle, hget]
              cases hrest : show_text_loop stations (i + 2) with
              | ok rest => simp [hrest, Except.isOk, Except.toBool]
              | error e => rw [hrest] at hrec; cases hrec
            · rw [if_neg hc2] at hrec
              rw [if_neg (by omega)]
              rw [show_text_loop, dif_pos hle, hget, hrec]
      · rw [if_pos (Or.inl (by omega))]
        rw [show_text_loop, dif_neg hle]
        rfl

/-- C10, confirmed.  `AskStation.show_text` completes without error exactly
when the station list has odd size; for every even size (including zero)
it raises an uncaught `IndexError`, because `while i <= len(stations)`
admits `i = len(stations)` and the access `stations[i]` on that iteration
is outside the `try` block. -/
theorem show_text_parity (stations : List Station) :
    ((show_text stations).isOk = true ↔ stations.length % 2 = 1) ∧
    (show_text stations = Except.error PyError.indexError ↔
      stations.length % 2 = 0) := by
  have h := show_text_loop_eq stations (stations.length + 1) 0 (by omega)
  by_cases hc : stations.length % 2 = 1
  · rw [if_pos (Or.inr (by omega))] at h
    have hok : (show_text stations).isOk = true := h
    refine ⟨⟨fun _ => hc, fun _ => hok⟩, ?_, ?_⟩
    · intro he
      rw [show_text] at he
      rw [show_text] at hok
      rw [he] at hok
      cases hok
    · intro h0
      omega
  · rw [if_neg (by omega)] at h
    have herr : show_text stations = Except.error PyError.indexError := h
    refine ⟨⟨?_, fun h1 => absurd h1 hc⟩, ⟨fun _ => by omega, fun _ => herr⟩⟩
    intro hok
    rw [show_text] at hok herr
    rw [herr] at hok
    cases hok

/-! ## C3 — station-picker input handling -/

/-- C3, counterexample.  The claim says inputs 0 and N+1 are rejected with
a recoverable re-prompt and no exception escapes.  On the one-station list
`[stationA]`, input 2 (= N+1) raises an uncaught `IndexError`
(`stations[1]`), and input 0 is not rejected at all: `stations[-1]`
selects the last station. -/
theorem station_picker_counterexample :
    askStation_get_input [stationA] (some 2) = Except.error PyError.indexError ∧
    askStation_get_input [stationA] (some 0) = Except.ok stationA := by
  constructor <;>
    simp [askStation_get_input, show_text, show_text_loop, pyGet, pyIndex]

/-- C3, amended.  For a station list of odd size N (for even N the
rendering itself already crashes), every input in 1..N selects the station
at that 1-based position; but input 0 selects the *last* station via
Python negative indexing instead of re-prompting, and input N+1 raises an
uncaught `IndexError`.  A non-numeric entry raises an uncaught
`ValueError`. -/
theorem station_picker_amended (stations : List Station)
    (hodd : stations.length % 2 = 1) :
    (∀ k : Nat, (hk : k < stations.length) →
      askStation_get_input stations (some ((k : Int) + 1))
        = Except.ok (stations.get ⟨k, hk⟩)) ∧
    (∃ last, stations.getLast? = some last ∧
      askStation_get_input stations (some 0) = Except.ok last) ∧
    askStation_get_input stations (some ((stations.length : Int) + 1))
      = Except.error PyError.indexError ∧
    askStation_get_input stations none = Except.error PyError.valueError := by
  have hshow := show_text_loop_eq stations (stations.length + 1) 0 (by omega)
  rw [if_pos (Or.inr (by omega))] at hshow
  obtain ⟨lines, hlines⟩ : ∃ lines, show_text stations = Except.ok lines := by
    rw [show_text]
    cases hst : show_text_loop stations 0 with
    | ok l => exact ⟨l, rfl⟩
    | error e => rw [hst] at hshow; cases hshow
  have hne : stations ≠ [] := by
    intro h
    rw [h] at hodd
    cases hodd
  have hlen1 : 1 ≤ stations.length := by
    cases stations with
    | nil => exact absurd rfl hne
    | cons a t => simp
  refine ⟨?_, ?_, ?_, ?_⟩
  · intro k hk
    have hpg : pyGet stations ((k : Int) + 1 - 1)
        = some (stations.get ⟨k, hk⟩) := by
      have har : (k : Int) + 1 - 1 = (k : Int) := by ring
      rw [har]
      unfold pyGet
      have hpi : pyIndex stations.length (k : Int) = some k := by
        unfold pyIndex
        rw [if_pos (by omega), if_pos (by exact_mod_cast hk)]
        rw [Int.toNat_ofNat]
      rw [hpi, Option.some_bind, List.get?_eq_get hk]
    simp only [askStation_get_input, hlines, hpg]
  · refine ⟨stations.getLast hne, List.getLast?_eq_getLast_of_ne_nil hne, ?_⟩
    have hpg : pyGet stations ((0 : Int) - 1)
        = some (stations.getLast hne) := by
      unfold pyGet
      have hpi : pyIndex stations.length ((0 : Int) - 1)
          = some (stations.length - 1) := by
        unfold pyIndex
        rw [if_neg (by omega), if_pos (by omega)]
        congr 1
        omega
      rw [hpi, Option.some_bind]
      rw [← List.getLast?_eq_get? stations,
        List.getLast?_eq_getLast_of_ne_nil hne]
    simp only [askStation_get_input, hlines, hpg]
  · have hpg : pyGet stations ((stations.length : Int) + 1 - 1) = none := by
      unfold pyGet
      have hpi : pyIndex stations.length ((stations.length : Int) + 1 - 1)
          = none := by
        unfold pyIndex
        rw [if_pos (by omega), if_neg (by omega)]
      rw [hpi, Option.none_bind]
    simp only [askStation_get_input, hlines, hpg]
  · simp only [askStation_get_input, hlines]

/-- Witness for C3 (amended): on `[stationA]`, input 1 selects the only
station. -/
theorem station_picker_amended_witness :
    askStation_get_input [stationA] (some 1) = Except.ok stationA := by
  have h := (station_picker_amended [stationA] (by decide)).1 0 (by decide)
  simpa using h

/-! ## C6 — forward("station") then back() restores the active page -/

/-- Helper: a successful page lookup returns the requested name, which is
registered. -/
theorem findPage_some {name page : String} (h : findPage name = some page) :
    page = name ∧ name ∈ registeredPages := by
  unfold findPage at h
  have hmem : page ∈ registeredPages.filter (fun p => p == name) := by
    cases hl : registeredPages.filter (fun p => p == name) with
    | nil => rw [hl] at h; cases h
    | cons a t =>
        rw [hl] at h
        have ha : a = page := by simpa using h
        rw [← ha]
        exact List.mem_cons_self _ _
  have hbeq := List.of_mem_filter hmem
  have hpn : page = name := by simpa using hbeq
  subst hpn
  exact ⟨rfl, List.mem_of_mem_filter hmem⟩

/-- Helper: looking up a registered page name succeeds with that page. -/
theorem findPage_mem {name : String} (h : name ∈ registeredPages) :
    findPage name = some name := by
  fin_cases h <;> rfl

/-- Helper: a successful `forward` appends the name and activates it. -/
theorem forward_eq_some {name : String} {s t : NavState}
    (h : forward name s = some t) :
    t = { memory := s.memory ++ [name], current := name } ∧
    name ∈ registeredPages := by
  unfold forward at h
  cases hf : findPage name with
  | none => rw [hf] at h; cases h
  | some page =>
      rw [hf] at h
      obtain ⟨hpn, hmem⟩ := findPage_some hf
      subst hpn
      cases h
      exact ⟨rfl, hmem⟩

/-- The invariant the navigation operations maintain: the history is
non-empty, the active page is the page named by the last history entry,
and that name is registered. -/
def NavInv (s : NavState) : Prop :=
  s.memory ≠ [] ∧ s.memory.getLast? = some s.current ∧
  s.current ∈ registeredPages

/-- Helper: a successful `back` also leaves a state satisfying `NavInv`. -/
theorem back_navInv {s t : NavState} (h : back s = some t) : NavInv t := by
  simp only [back] at h
  cases hl : (if 1 < s.memory.length then s.memory.dropLast
      else s.memory).getLast? with
  | none => rw [hl] at h; cases h
  | some last =>
      rw [hl] at h
      obtain ⟨heq, hmem⟩ := forward_eq_some h
      subst heq
      exact ⟨by simp, List.getLast?_concat _, hmem⟩

/-- Helper: every reachable navigation state satisfies `NavInv`. -/
theorem reachable_navInv {s : NavState} (h : Reachable s) : NavInv s := by
  cases h with
  | root =>
      refine ⟨by simp [rootState], rfl, ?_⟩
      simp [rootState, registeredPages]
  | fwd hr hf =>
      obtain ⟨heq, hmem⟩ := forward_eq_some hf
      subst heq
      exact ⟨by simp, List.getLast?_concat _, hmem⟩
  | bk hr hb => exact back_navInv hb

/-- C6, confirmed.  From every reachable navigation state,
`forward("station")` followed by `back()` succeeds and restores the whole
navigation state — in particular the page that was active immediately
before the `forward` call is active again. -/
theorem forward_station_back_roundtrip (s : NavState) (h : Reachable s) :
    (forward "station" s).bind back = some s := by
  obtain ⟨hne, hlast, hmem⟩ := reachable_navInv h
  obtain ⟨mem, cur⟩ := s
  replace hne : mem ≠ [] := hne
  replace hlast : mem.getLast? = some cur := hlast
  replace hmem : cur ∈ registeredPages := hmem
  have hf : forward "station" ⟨mem, cur⟩
      = some { memory := mem ++ ["station"], current := "station" } := by
    unfold forward
    rw [findPage_mem (by simp [registeredPages])]
  rw [hf, Option.some_bind]
  have hlen : 1 < (mem ++ ["station"]).length := by
    rw [List.length_append]
    cases mem with
    | nil => exact absurd rfl hne
    | cons a t => simp
  have hdrop : (mem ++ ["station"]).dropLast = mem :=
    List.dropLast_concat ..
  have hback : back { memory := mem ++ ["station"], current := "station" }
      = forward cur { memory := mem.dropLast, current := "station" } := by
    simp only [back]
    rw [if_pos hlen, hdrop, hlast]
  rw [hback]
  unfold forward
  rw [findPage_mem hmem]
  have hrestore : mem.dropLast ++ [cur] = mem := by
    have hgl : mem.getLast hne = cur := by
      rw [List.getLast?_eq_getLast_of_ne_nil hne] at hlast
      exact Option.some_injective _ hlast
    rw [← hgl]
    exact List.dropLast_append_getLast hne
  rw [hrestore]

/-- Witness for C6, at the root state. -/
theorem forward_station_back_roundtrip_witness :
    (forward "station" rootState).bind back = some rootState :=
  forward_station_back_roundtrip rootState Reachable.root

end RadioOnline
